import Mathlib

/-!
Verification of the particle-dance force-field simulation.

The JavaScript source keeps particle and system state in mutable class
instances and computes with IEEE doubles; the shallow embedding below
represents that state as immutable records over the real numbers and each
method as a state-transforming function.  The optimized squared-distance
variant of the engine (the file registering `window.ParticleSystem` with
`maxSpeedSq` precomputed) is embedded as `Particle` / `ParticleSystem`;
the earlier sqrt-based variant (web/js/particles.js), whose update methods
take an (unused) delta-time argument, is embedded as `ParticleJS` /
`SystemJS` for the delta-time independence property.

External resources (the canvas element, its 2d context, performance.now,
requestAnimationFrame) are not part of the simulation state proper: the
canvas dimensions the methods read are carried as `canvasWidth` /
`canvasHeight` fields, and every painting call is reified into a `Frame`
value describing exactly the draw commands issued, so that `render` becomes
a function returning the successor state together with the frame it paints.
Calls to Math.random() are made explicit arguments (one draw per call site).
-/

noncomputable section

namespace ParticleDance

/-- JavaScript's `%` on the nonnegative operands used for hue cycling:
`a % b = a - b * floor (a / b)` (for `a ≥ 0`, `b > 0` this agrees with the
truncating semantics of the JS operator). -/
def jsMod (a b : ℝ) : ℝ := a - b * ⌊a / b⌋

/-- The three interaction modes of the field simulator. -/
inductive Mode
  | attract
  | repel
  | swirl
deriving DecidableEq

/-- The cached color string `"h,s%,l%"` built by `_updateColorCache` from the
rounded hue/saturation/lightness; the string is determined by the three
rounded integers, which is what we store. -/
structure ColorBase where
  h : ℤ
  s : ℤ
  l : ℤ
deriving DecidableEq

/-- One particle record (squared-distance engine variant). -/
structure Particle where
  x : ℝ
  y : ℝ
  vx : ℝ
  vy : ℝ
  baseSize : ℝ
  size : ℝ
  hue : ℝ
  saturation : ℝ
  lightness : ℝ
  alpha : ℝ
  friction : ℝ
  maxSpeed : ℝ
  maxSpeedSq : ℝ
  glowIntensity : ℝ
  hueSpeed : ℝ
  colorBase : ColorBase

/-- The Math.random() draws consumed by the `Particle` constructor, one field
per call site in source order. -/
structure NewDraws where
  rvx : ℝ
  rvy : ℝ
  rsize : ℝ
  rhue : ℝ
  rsat : ℝ
  rlight : ℝ
  ralpha : ℝ
  rglow : ℝ
  rhueSpeed : ℝ

/-- `_updateColorCache`: refresh the cached rounded color components. -/
def Particle.updateColorCache (p : Particle) : Particle :=
  { p with colorBase := ⟨round p.hue, round p.saturation, round p.lightness⟩ }

/-- The `Particle` constructor for a call without an explicit size option
(`new Particle(x, y, { hue })`): `options.hue || Math.random() * 360` falls
back to a random hue when the supplied hue is 0 (JS falsiness). -/
def Particle.new (x y : ℝ) (hueOpt : ℝ) (r : NewDraws) : Particle :=
  let baseSize := 3 + r.rsize * 3
  let hue := if hueOpt = 0 then r.rhue * 360 else hueOpt
  let saturation := 80 + r.rsat * 20
  let lightness := 50 + r.rlight * 20
  { x := x
    y := y
    vx := (r.rvx - 0.5) * 2
    vy := (r.rvy - 0.5) * 2
    baseSize := baseSize
    size := baseSize
    hue := hue
    saturation := saturation
    lightness := lightness
    alpha := 0.8 + r.ralpha * 0.2
    friction := 0.98
    maxSpeed := 15
    maxSpeedSq := 225
    glowIntensity := 0.5 + r.rglow * 0.5
    hueSpeed := 0.1 + r.rhueSpeed * 0.2
    colorBase := ⟨round hue, round saturation, round lightness⟩ }

/-- `Particle.prototype.update(width, height)`: integrate position, apply
friction, clamp speed (squared comparison, rescale by `maxSpeed / sqrt`),
wrap at the 20-unit margin, cycle hue, pulse size from the pre-clamp speed,
and with probability 0.1 (draw `rnd`) refresh the color cache. -/
def Particle.update (p : Particle) (width height rnd : ℝ) : Particle :=
  let x1 := p.x + p.vx
  let y1 := p.y + p.vy
  let vx1 := p.vx * p.friction
  let vy1 := p.vy * p.friction
  let speedSq := vx1 * vx1 + vy1 * vy1
  let p1 : Particle :=
    { p with
      x := if x1 < -20 then width + 20 else if x1 > width + 20 then -20 else x1
      y := if y1 < -20 then height + 20 else if y1 > height + 20 then -20 else y1
      vx := if speedSq > p.maxSpeedSq then vx1 * (p.maxSpeed / Real.sqrt speedSq) else vx1
      vy := if speedSq > p.maxSpeedSq then vy1 * (p.maxSpeed / Real.sqrt speedSq) else vy1
      hue := jsMod (p.hue + p.hueSpeed) 360
      size := p.baseSize + Real.sqrt speedSq * 0.3 }
  if rnd < 0.1 then p1.updateColorCache else p1

lemma Particle.updateColorCache_vx (p : Particle) : (p.updateColorCache).vx = p.vx := rfl

lemma Particle.update_vx (p : Particle) (width height rnd : ℝ) :
    (p.update width height rnd).vx =
      if (p.vx * p.friction) * (p.vx * p.friction) + (p.vy * p.friction) * (p.vy * p.friction)
          > p.maxSpeedSq then
        (p.vx * p.friction) * (p.maxSpeed /
          Real.sqrt ((p.vx * p.friction) * (p.vx * p.friction)
            + (p.vy * p.friction) * (p.vy * p.friction)))
      else p.vx * p.friction := by
  unfold Particle.update
  split <;> rfl

lemma Particle.update_vy (p : Particle) (width height rnd : ℝ) :
    (p.update width height rnd).vy =
      if (p.vx * p.friction) * (p.vx * p.friction) + (p.vy * p.friction) * (p.vy * p.friction)
          > p.maxSpeedSq then
        (p.vy * p.friction) * (p.maxSpeed /
          Real.sqrt ((p.vx * p.friction) * (p.vx * p.friction)
            + (p.vy * p.friction) * (p.vy * p.friction)))
      else p.vy * p.friction := by
  unfold Particle.update
  split <;> rfl

lemma Particle.update_x (p : Particle) (width height rnd : ℝ) :
    (p.update width height rnd).x =
      if p.x + p.vx < -20 then width + 20
      else if p.x + p.vx > width + 20 then -20 else p.x + p.vx := by
  unfold Particle.update
  split <;> rfl

lemma Particle.update_y (p : Particle) (width height rnd : ℝ) :
    (p.update width height rnd).y =
      if p.y + p.vy < -20 then height + 20
      else if p.y + p.vy > height + 20 then -20 else p.y + p.vy := by
  unfold Particle.update
  split <;> rfl

/-- If the post-friction speed does not exceed the limit, the clamp branch is
not taken: the tick multiplies each velocity component by the friction
coefficient only. -/
lemma Particle.update_v_noclamp (p : Particle) (width height rnd : ℝ)
    (hnc : (p.vx * p.friction) * (p.vx * p.friction)
         + (p.vy * p.friction) * (p.vy * p.friction) ≤ p.maxSpeedSq) :
    (p.update width height rnd).vx = p.vx * p.friction ∧
    (p.update width height rnd).vy = p.vy * p.friction := by
  rw [Particle.update_vx, Particle.update_vy]
  rw [if_neg (by exact not_lt.mpr hnc), if_neg (by exact not_lt.mpr hnc)]
  exact ⟨rfl, rfl⟩

/-- Claim C1: at the end of every simulation tick the particle's squared
speed `vx² + vy²` is at most `maxSpeed²` (the limit being enforced by
rescaling the velocity vector), and the speed-limit step never clamps the
position: the tick's position is exactly the wrapped integrated position. -/
theorem speedClamp_invariant (p : Particle) (width height rnd : ℝ)
    (hm : p.maxSpeedSq = p.maxSpeed * p.maxSpeed) (h0 : 0 ≤ p.maxSpeed) :
    (p.update width height rnd).vx * (p.update width height rnd).vx
      + (p.update width height rnd).vy * (p.update width height rnd).vy
      ≤ p.maxSpeed * p.maxSpeed
    ∧ (p.update width height rnd).x =
        (if p.x + p.vx < -20 then width + 20
         else if p.x + p.vx > width + 20 then -20 else p.x + p.vx)
    ∧ (p.update width height rnd).y =
        (if p.y + p.vy < -20 then height + 20
         else if p.y + p.vy > height + 20 then -20 else p.y + p.vy) := by
  refine ⟨?_, Particle.update_x p width height rnd, Particle.update_y p width height rnd⟩
  rw [Particle.update_vx, Particle.update_vy]
  set vx1 := p.vx * p.friction with hvx1
  set vy1 := p.vy * p.friction with hvy1
  set S := vx1 * vx1 + vy1 * vy1 with hS
  have hS0 : 0 ≤ S := add_nonneg (mul_self_nonneg _) (mul_self_nonneg _)
  by_cases h : S > p.maxSpeedSq
  · rw [if_pos h, if_pos h]
    have hSpos : 0 < S := lt_of_le_of_lt (by rw [hm]; exact mul_self_nonneg _) h
    have hsq : Real.sqrt S * Real.sqrt S = S := Real.mul_self_sqrt hS0
    have hne : Real.sqrt S ≠ 0 := by
      intro hz
      rw [hz, mul_zero] at hsq
      exact absurd hsq.symm (ne_of_gt hSpos)
    have key : vx1 * (p.maxSpeed / Real.sqrt S) * (vx1 * (p.maxSpeed / Real.sqrt S))
        + vy1 * (p.maxSpeed / Real.sqrt S) * (vy1 * (p.maxSpeed / Real.sqrt S))
        = S * (p.maxSpeed * p.maxSpeed) / (Real.sqrt S * Real.sqrt S) := by
      field_simp
      ring
    rw [key, hsq, mul_comm S (p.maxSpeed * p.maxSpeed), mul_div_assoc,
      div_self (ne_of_gt hSpos), mul_one]
  · rw [if_neg h, if_neg h]
    rw [hm] at h
    exact le_of_not_lt h

/-- Witness for C1 at a concrete particle (anchor constants from the source:
friction 0.98, maxSpeed 15, maxSpeedSq 225) with a velocity large enough that
the clamp engages. -/
def pC1 : Particle :=
  { x := 10, y := 20, vx := 30, vy := 40, baseSize := 3, size := 3, hue := 120,
    saturation := 90, lightness := 60, alpha := 1, friction := 0.98, maxSpeed := 15,
    maxSpeedSq := 225, glowIntensity := 1, hueSpeed := 0.1, colorBase := ⟨120, 90, 60⟩ }

theorem speedClamp_invariant_witness :
    (pC1.update 800 600 1).vx * (pC1.update 800 600 1).vx
      + (pC1.update 800 600 1).vy * (pC1.update 800 600 1).vy ≤ 15 * 15 :=
  (speedClamp_invariant pC1 800 600 1 (by norm_num [pC1]) (by norm_num [pC1])).1

/-- Claim C2: a particle whose position starts inside the wrapped region
`[-20, width+20] × [-20, height+20]` is again inside it after a tick; a
coordinate that leaves the region is teleported to the opposite edge. -/
theorem wrap_invariant (p : Particle) (width height rnd : ℝ)
    (hw : 0 ≤ width) (hh : 0 ≤ height)
    (hx : -20 ≤ p.x ∧ p.x ≤ width + 20) (hy : -20 ≤ p.y ∧ p.y ≤ height + 20) :
    (-20 ≤ (p.update width height rnd).x ∧ (p.update width height rnd).x ≤ width + 20)
    ∧ (-20 ≤ (p.update width height rnd).y ∧ (p.update width height rnd).y ≤ height + 20)
    ∧ (p.x + p.vx < -20 → (p.update width height rnd).x = width + 20)
    ∧ (p.x + p.vx > width + 20 → (p.update width height rnd).x = -20)
    ∧ (p.y + p.vy < -20 → (p.update width height rnd).y = height + 20)
    ∧ (p.y + p.vy > height + 20 → (p.update width height rnd).y = -20) := by
  rw [Particle.update_x, Particle.update_y]
  refine ⟨?_, ?_, ?_, ?_, ?_, ?_⟩
  · split_ifs with h1 h2 <;> constructor <;> linarith
  · split_ifs with h1 h2 <;> constructor <;> linarith
  · intro h; rw [if_pos h]
  · intro h; rw [if_neg (by linarith), if_pos h]
  · intro h; rw [if_pos h]
  · intro h; rw [if_neg (by linarith), if_pos h]

/-- Witness for C2: a particle about to cross the left margin wraps to the
right edge and stays inside the region. -/
def pC2 : Particle :=
  { x := -15, y := 30, vx := -10, vy := 0, baseSize := 3, size := 3, hue := 0,
    saturation := 90, lightness := 60, alpha := 1, friction := 0.98, maxSpeed := 15,
    maxSpeedSq := 225, glowIntensity := 1, hueSpeed := 0.1, colorBase := ⟨0, 90, 60⟩ }

theorem wrap_invariant_witness :
    (-20 ≤ (pC2.update 800 600 1).x ∧ (pC2.update 800 600 1).x ≤ 800 + 20)
    ∧ (pC2.update 800 600 1).x = 800 + 20 := by
  have h := wrap_invariant pC2 800 600 1 (by norm_num) (by norm_num)
    (by norm_num [pC2]) (by norm_num [pC2])
  exact ⟨h.1, h.2.2.1 (by norm_num [pC2])⟩

/-- The radial background gradient object built by
`ctx.createRadialGradient(w/2, h/2, 0, w/2, h/2, max w h)` together with its
two color stops; only the inner stop's lightness `2 + roundedBrightness`
varies (hue 270 / sat 50 inner, hue 290 / sat 60 / lightness 1 outer). -/
structure RadialGradient where
  cx : ℝ
  cy : ℝ
  r : ℝ
  stop0l : ℤ

/-- The particle-system state (squared-distance engine variant).  The canvas
dimensions the methods read through `this.canvas` are carried as fields;
`ctx`, `lastTime` and `fps` (wall-clock bookkeeping) and the dead
`_bgColorCache` field are external to the simulation and omitted. -/
structure ParticleSystem where
  canvasWidth : ℝ
  canvasHeight : ℝ
  particles : List Particle
  particleCount : ℕ
  glowEnabled : Bool
  mouseX : ℝ
  mouseY : ℝ
  mouseActive : Bool
  mode : Mode
  forceRadius : ℝ
  forceRadiusSq : ℝ
  forceStrength : ℝ
  bgHue : ℝ
  bgBrightness : ℝ
  bgDirection : ℝ
  performanceMode : Bool
  cursorVisible : Bool
  lastBgBrightness : ℤ
  bgGradient : Option RadialGradient

/-- The force-application half of the per-particle loop body of
`ParticleSystem.update`: if the anchor is active and the squared distance is
strictly between 1 and `forceRadiusSq`, add the mode-specific force along the
unit vector toward the anchor. -/
def ParticleSystem.applyFieldForce (s : ParticleSystem) (p : Particle) : Particle :=
  if s.mouseActive then
    let dx := s.mouseX - p.x
    let dy := s.mouseY - p.y
    let distSq := dx * dx + dy * dy
    if distSq < s.forceRadiusSq ∧ distSq > 1 then
      let dist := Real.sqrt distSq
      let force := (1 - dist / s.forceRadius) * s.forceStrength
      let invDist := 1 / dist
      let nx := dx * invDist
      let ny := dy * invDist
      match s.mode with
      | Mode.attract =>
          { p with vx := p.vx + nx * force, vy := p.vy + ny * force }
      | Mode.repel =>
          { p with vx := p.vx - nx * (force * 1.5), vy := p.vy - ny * (force * 1.5) }
      | Mode.swirl =>
          { p with
            vx := p.vx + (-ny * (force * 0.8) + nx * (force * 0.3))
            vy := p.vy + (nx * (force * 0.8) + ny * (force * 0.3)) }
    else p
  else p

/-- One iteration of the particle loop in `ParticleSystem.update`: force
application followed by `particle.update(width, height)`. -/
def ParticleSystem.tickParticle (s : ParticleSystem) (p : Particle) (rnd : ℝ) : Particle :=
  Particle.update (s.applyFieldForce p) s.canvasWidth s.canvasHeight rnd

/-- The indexed `for` loop over the particle array (index `j` is the loop
counter; `rnds` supplies the color-cache draw of each particle's update). -/
def ParticleSystem.updateParticles (s : ParticleSystem) (rnds : ℕ → ℝ) :
    ℕ → List Particle → List Particle
  | _, [] => []
  | j, p :: ps => s.tickParticle p (rnds j) :: s.updateParticles rnds (j + 1) ps

/-- `ParticleSystem.update()`: advance the background-breathing oscillator,
then run the per-particle loop (the loop reads the mouse/force configuration
cached before the loop, i.e. the pre-tick values). -/
def ParticleSystem.update (s : ParticleSystem) (rnds : ℕ → ℝ) : ParticleSystem :=
  let b1 := s.bgBrightness + 0.1 * s.bgDirection
  let dir1 : ℝ := if b1 > 3 then -1 else if b1 < 0 then 1 else s.bgDirection
  { s with
    bgBrightness := b1
    bgDirection := dir1
    particles := s.updateParticles rnds 0 s.particles }

lemma ParticleSystem.updateParticles_get? (s : ParticleSystem) (rnds : ℕ → ℝ) :
    ∀ (ps : List Particle) (j i : ℕ),
      (s.updateParticles rnds j ps).get? i
        = (ps.get? i).map (fun p => s.tickParticle p (rnds (j + i))) := by
  intro ps
  induction ps with
  | nil => intro j i; simp [ParticleSystem.updateParticles]
  | cons p ps ih =>
      intro j i
      cases i with
      | zero => simp [ParticleSystem.updateParticles]
      | succ i =>
          simp only [ParticleSystem.updateParticles, List.get?]
          rw [ih (j + 1) i]
          have harith : j + 1 + i = j + (i + 1) := by omega
          rw [harith]

lemma ParticleSystem.update_get? (s : ParticleSystem) (rnds : ℕ → ℝ) (i : ℕ) :
    (s.update rnds).particles.get? i
      = (s.particles.get? i).map (fun p => s.tickParticle p (rnds i)) := by
  show (s.updateParticles rnds 0 s.particles).get? i = _
  rw [ParticleSystem.updateParticles_get? s rnds s.particles 0 i]
  simp

/-- When the anchor is inactive, or the particle sits outside the interaction
annulus, the force application is the identity. -/
lemma ParticleSystem.applyFieldForce_skip (s : ParticleSystem) (p : Particle)
    (hrad : s.forceRadiusSq = s.forceRadius * s.forceRadius)
    (hr0 : 0 ≤ s.forceRadius)
    (hskip : s.mouseActive = false
      ∨ s.forceRadius ≤ Real.sqrt ((s.mouseX - p.x) * (s.mouseX - p.x)
          + (s.mouseY - p.y) * (s.mouseY - p.y))
      ∨ Real.sqrt ((s.mouseX - p.x) * (s.mouseX - p.x)
          + (s.mouseY - p.y) * (s.mouseY - p.y)) ≤ 1) :
    s.applyFieldForce p = p := by
  unfold ParticleSystem.applyFieldForce
  rcases hskip with hoff | hfar | hnear
  · rw [hoff]; simp
  · rcases Bool.eq_false_or_eq_true s.mouseActive with hact | hact
    swap
    · rw [hact]; simp
    set dSq := (s.mouseX - p.x) * (s.mouseX - p.x) + (s.mouseY - p.y) * (s.mouseY - p.y) with hdSq
    have hd0 : 0 ≤ dSq := add_nonneg (mul_self_nonneg _) (mul_self_nonneg _)
    have : s.forceRadius * s.forceRadius ≤ dSq := by
      have h2 := mul_le_mul hfar hfar hr0 (Real.sqrt_nonneg _)
      rwa [Real.mul_self_sqrt hd0] at h2
    rw [hact]
    simp only [if_true]
    rw [if_neg]
    intro hcon
    rw [hrad] at hcon
    exact absurd hcon.1 (not_lt.mpr this)
  · rcases Bool.eq_false_or_eq_true s.mouseActive with hact | hact
    swap
    · rw [hact]; simp
    set dSq := (s.mouseX - p.x) * (s.mouseX - p.x) + (s.mouseY - p.y) * (s.mouseY - p.y) with hdSq
    have hd0 : 0 ≤ dSq := add_nonneg (mul_self_nonneg _) (mul_self_nonneg _)
    have : dSq ≤ 1 := by
      have h2 := mul_le_mul hnear hnear (Real.sqrt_nonneg _) (by norm_num)
      rwa [Real.mul_self_sqrt hd0, mul_one] at h2
    rw [hact]
    simp only [if_true]
    rw [if_neg]
    intro hcon
    exact absurd hcon.2 (not_lt.mpr this)

/-- Claim C5: a particle whose distance to the anchor is at least the
interaction radius, or at most 1, or for which no anchor is active, receives
no force during a tick: both velocity components are multiplied by the
friction coefficient only (the speed clamp being a no-op because friction
cannot raise a speed that is within the maximum above it). -/
theorem noForce_friction_only (s : ParticleSystem) (rnds : ℕ → ℝ) (i : ℕ) (p : Particle)
    (hp : s.particles.get? i = some p)
    (hrad : s.forceRadiusSq = s.forceRadius * s.forceRadius)
    (hr0 : 0 ≤ s.forceRadius)
    (hskip : s.mouseActive = false
      ∨ s.forceRadius ≤ Real.sqrt ((s.mouseX - p.x) * (s.mouseX - p.x)
          + (s.mouseY - p.y) * (s.mouseY - p.y))
      ∨ Real.sqrt ((s.mouseX - p.x) * (s.mouseX - p.x)
          + (s.mouseY - p.y) * (s.mouseY - p.y)) ≤ 1)
    (hf0 : 0 ≤ p.friction) (hf1 : p.friction ≤ 1)
    (hsp : p.vx * p.vx + p.vy * p.vy ≤ p.maxSpeedSq) :
    ((s.update rnds).particles.get? i).map Particle.vx = some (p.vx * p.friction)
    ∧ ((s.update rnds).particles.get? i).map Particle.vy = some (p.vy * p.friction) := by
  rw [ParticleSystem.update_get?, hp]
  have hforce : s.applyFieldForce p = p :=
    ParticleSystem.applyFieldForce_skip s p hrad hr0 hskip
  have hnc : (p.vx * p.friction) * (p.vx * p.friction)
      + (p.vy * p.friction) * (p.vy * p.friction) ≤ p.maxSpeedSq := by
    have hsq : p.friction * p.friction ≤ 1 := mul_le_one₀ hf1 hf0 hf1
    have hS0 : 0 ≤ p.vx * p.vx + p.vy * p.vy :=
      add_nonneg (mul_self_nonneg _) (mul_self_nonneg _)
    have step : (p.vx * p.friction) * (p.vx * p.friction)
        + (p.vy * p.friction) * (p.vy * p.friction)
        = (p.vx * p.vx + p.vy * p.vy) * (p.friction * p.friction) := by ring
    rw [step]
    calc (p.vx * p.vx + p.vy * p.vy) * (p.friction * p.friction)
        ≤ (p.vx * p.vx + p.vy * p.vy) * 1 := by
          exact mul_le_mul_of_nonneg_left hsq hS0
      _ = p.vx * p.vx + p.vy * p.vy := mul_one _
      _ ≤ p.maxSpeedSq := hsp
  have hupd := Particle.update_v_noclamp p s.canvasWidth s.canvasHeight (rnds i) hnc
  simp only [ParticleSystem.tickParticle, Option.map_some']
  rw [hforce, hupd.1, hupd.2]
  exact ⟨rfl, rfl⟩

/-- Witness for C5: anchor inactive, particle with velocity (1, 2). -/
def pC5 : Particle :=
  { x := 100, y := 100, vx := 1, vy := 2, baseSize := 3, size := 3, hue := 10,
    saturation := 90, lightness := 60, alpha := 1, friction := 0.98, maxSpeed := 15,
    maxSpeedSq := 225, glowIntensity := 1, hueSpeed := 0.1, colorBase := ⟨10, 90, 60⟩ }

def sC5 : ParticleSystem :=
  { canvasWidth := 800, canvasHeight := 600, particles := [pC5], particleCount := 300,
    glowEnabled := true, mouseX := 400, mouseY := 300, mouseActive := false,
    mode := Mode.attract, forceRadius := 200, forceRadiusSq := 40000,
    forceStrength := 0.5, bgHue := 270, bgBrightness := 0, bgDirection := 1,
    performanceMode := false, cursorVisible := true, lastBgBrightness := -1,
    bgGradient := none }

theorem noForce_friction_only_witness :
    ((sC5.update fun _ => 1).particles.get? 0).map Particle.vx = some (1 * 0.98)
    ∧ ((sC5.update fun _ => 1).particles.get? 0).map Particle.vy = some (2 * 0.98) := by
  have h := noForce_friction_only sC5 (fun _ => 1) 0 pC5 rfl
    (by norm_num [sC5]) (by norm_num [sC5]) (Or.inl rfl)
    (by norm_num [pC5]) (by norm_num [pC5]) (by norm_num [pC5])
  simpa [pC5] using h

/-- Evaluation of the force application in attract mode: with the anchor
active at distance `d` from the particle, `1 < d < forceRadius`, the velocity
gains the unit vector toward the anchor scaled by the linear-falloff force. -/
lemma ParticleSystem.applyFieldForce_attract (s : ParticleSystem) (p : Particle) (d : ℝ)
    (hact : s.mouseActive = true) (hmode : s.mode = Mode.attract)
    (hdsq : (s.mouseX - p.x) * (s.mouseX - p.x) + (s.mouseY - p.y) * (s.mouseY - p.y) = d * d)
    (hd1 : 1 < d) (hdr : d < s.forceRadius)
    (hrad : s.forceRadiusSq = s.forceRadius * s.forceRadius) :
    s.applyFieldForce p =
      { p with
        vx := p.vx + (s.mouseX - p.x) / d * ((1 - d / s.forceRadius) * s.forceStrength)
        vy := p.vy + (s.mouseY - p.y) / d * ((1 - d / s.forceRadius) * s.forceStrength) } := by
  have hd0 : (0 : ℝ) < d := lt_trans one_pos hd1
  have hguard : (s.mouseX - p.x) * (s.mouseX - p.x) + (s.mouseY - p.y) * (s.mouseY - p.y)
      < s.forceRadiusSq
      ∧ (s.mouseX - p.x) * (s.mouseX - p.x) + (s.mouseY - p.y) * (s.mouseY - p.y) > 1 := by
    rw [hdsq, hrad]
    constructor
    · nlinarith
    · nlinarith
  have hsqrt : Real.sqrt ((s.mouseX - p.x) * (s.mouseX - p.x)
      + (s.mouseY - p.y) * (s.mouseY - p.y)) = d := by
    rw [hdsq]; exact Real.sqrt_mul_self (le_of_lt hd0)
  unfold ParticleSystem.applyFieldForce
  rw [hact]
  simp only [if_true]
  rw [if_pos hguard, hsqrt, hmode]
  have hix : (s.mouseX - p.x) * (1 / d) = (s.mouseX - p.x) / d := mul_one_div _ _
  have hiy : (s.mouseY - p.y) * (1 / d) = (s.mouseY - p.y) / d := mul_one_div _ _
  simp only [hix, hiy]

/-- Evaluation of the force application in repel mode: same setting, the
velocity loses 1.5 times the attract kick along the anchor direction. -/
lemma ParticleSystem.applyFieldForce_repel (s : ParticleSystem) (p : Particle) (d : ℝ)
    (hact : s.mouseActive = true) (hmode : s.mode = Mode.repel)
    (hdsq : (s.mouseX - p.x) * (s.mouseX - p.x) + (s.mouseY - p.y) * (s.mouseY - p.y) = d * d)
    (hd1 : 1 < d) (hdr : d < s.forceRadius)
    (hrad : s.forceRadiusSq = s.forceRadius * s.forceRadius) :
    s.applyFieldForce p =
      { p with
        vx := p.vx - (s.mouseX - p.x) / d * ((1 - d / s.forceRadius) * s.forceStrength * 1.5)
        vy := p.vy - (s.mouseY - p.y) / d * ((1 - d / s.forceRadius) * s.forceStrength * 1.5) } := by
  have hd0 : (0 : ℝ) < d := lt_trans one_pos hd1
  have hguard : (s.mouseX - p.x) * (s.mouseX - p.x) + (s.mouseY - p.y) * (s.mouseY - p.y)
      < s.forceRadiusSq
      ∧ (s.mouseX - p.x) * (s.mouseX - p.x) + (s.mouseY - p.y) * (s.mouseY - p.y) > 1 := by
    rw [hdsq, hrad]
    constructor
    · nlinarith
    · nlinarith
  have hsqrt : Real.sqrt ((s.mouseX - p.x) * (s.mouseX - p.x)
      + (s.mouseY - p.y) * (s.mouseY - p.y)) = d := by
    rw [hdsq]; exact Real.sqrt_mul_self (le_of_lt hd0)
  unfold ParticleSystem.applyFieldForce
  rw [hact]
  simp only [if_true]
  rw [if_pos hguard, hsqrt, hmode]
  have hix : (s.mouseX - p.x) * (1 / d) = (s.mouseX - p.x) / d := mul_one_div _ _
  have hiy : (s.mouseY - p.y) * (1 / d) = (s.mouseY - p.y) / d := mul_one_div _ _
  simp only [hix, hiy]

/-- Post-tick velocity of a particle inside the interaction annulus of an
attract anchor, when the speed clamp does not engage: each component gains
the force kick and is then scaled by friction. -/
lemma attract_tick_v (s : ParticleSystem) (rnds : ℕ → ℝ) (i : ℕ) (p : Particle) (d : ℝ)
    (hp : s.particles.get? i = some p)
    (hact : s.mouseActive = true) (hmode : s.mode = Mode.attract)
    (hdsq : (s.mouseX - p.x) * (s.mouseX - p.x) + (s.mouseY - p.y) * (s.mouseY - p.y) = d * d)
    (hd1 : 1 < d) (hdr : d < s.forceRadius)
    (hrad : s.forceRadiusSq = s.forceRadius * s.forceRadius)
    (hnc : ((p.vx + (s.mouseX - p.x) / d * ((1 - d / s.forceRadius) * s.forceStrength))
              * p.friction)
            * ((p.vx + (s.mouseX - p.x) / d * ((1 - d / s.forceRadius) * s.forceStrength))
              * p.friction)
          + ((p.vy + (s.mouseY - p.y) / d * ((1 - d / s.forceRadius) * s.forceStrength))
              * p.friction)
            * ((p.vy + (s.mouseY - p.y) / d * ((1 - d / s.forceRadius) * s.forceStrength))
              * p.friction) ≤ p.maxSpeedSq) :
    ((s.update rnds).particles.get? i).map Particle.vx
      = some ((p.vx + (s.mouseX - p.x) / d * ((1 - d / s.forceRadius) * s.forceStrength))
          * p.friction)
    ∧ ((s.update rnds).particles.get? i).map Particle.vy
      = some ((p.vy + (s.mouseY - p.y) / d * ((1 - d / s.forceRadius) * s.forceStrength))
          * p.friction) := by
  rw [ParticleSystem.update_get?, hp]
  simp only [ParticleSystem.tickParticle, Option.map_some']
  rw [ParticleSystem.applyFieldForce_attract s p d hact hmode hdsq hd1 hdr hrad]
  have h := Particle.update_v_noclamp
    { p with
      vx := p.vx + (s.mouseX - p.x) / d * ((1 - d / s.forceRadius) * s.forceStrength)
      vy := p.vy + (s.mouseY - p.y) / d * ((1 - d / s.forceRadius) * s.forceStrength) }
    s.canvasWidth s.canvasHeight (rnds i) hnc
  rw [h.1, h.2]
  exact ⟨rfl, rfl⟩

/-- Post-tick velocity of a particle inside the interaction annulus of a
repel anchor, when the speed clamp does not engage. -/
lemma repel_tick_v (s : ParticleSystem) (rnds : ℕ → ℝ) (i : ℕ) (p : Particle) (d : ℝ)
    (hp : s.particles.get? i = some p)
    (hact : s.mouseActive = true) (hmode : s.mode = Mode.repel)
    (hdsq : (s.mouseX - p.x) * (s.mouseX - p.x) + (s.mouseY - p.y) * (s.mouseY - p.y) = d * d)
    (hd1 : 1 < d) (hdr : d < s.forceRadius)
    (hrad : s.forceRadiusSq = s.forceRadius * s.forceRadius)
    (hnc : ((p.vx - (s.mouseX - p.x) / d * ((1 - d / s.forceRadius) * s.forceStrength * 1.5))
              * p.friction)
            * ((p.vx - (s.mouseX - p.x) / d * ((1 - d / s.forceRadius) * s.forceStrength * 1.5))
              * p.friction)
          + ((p.vy - (s.mouseY - p.y) / d * ((1 - d / s.forceRadius) * s.forceStrength * 1.5))
              * p.friction)
            * ((p.vy - (s.mouseY - p.y) / d * ((1 - d / s.forceRadius) * s.forceStrength * 1.5))
              * p.friction) ≤ p.maxSpeedSq) :
    ((s.update rnds).particles.get? i).map Particle.vx
      = some ((p.vx - (s.mouseX - p.x) / d * ((1 - d / s.forceRadius) * s.forceStrength * 1.5))
          * p.friction)
    ∧ ((s.update rnds).particles.get? i).map Particle.vy
      = some ((p.vy - (s.mouseY - p.y) / d * ((1 - d / s.forceRadius) * s.forceStrength * 1.5))
          * p.friction) := by
  rw [ParticleSystem.update_get?, hp]
  simp only [ParticleSystem.tickParticle, Option.map_some']
  rw [ParticleSystem.applyFieldForce_repel s p d hact hmode hdsq hd1 hdr hrad]
  have h := Particle.update_v_noclamp
    { p with
      vx := p.vx - (s.mouseX - p.x) / d * ((1 - d / s.forceRadius) * s.forceStrength * 1.5)
      vy := p.vy - (s.mouseY - p.y) / d * ((1 - d / s.forceRadius) * s.forceStrength * 1.5) }
    s.canvasWidth s.canvasHeight (rnds i) hnc
  rw [h.1, h.2]
  exact ⟨rfl, rfl⟩

/-- The particle of the C3 counterexample: moving fast toward the anchor. -/
def pC3 : Particle :=
  { x := 0, y := 0, vx := 14, vy := 0, baseSize := 3, size := 3, hue := 0,
    saturation := 90, lightness := 60, alpha := 1, friction := 0.98, maxSpeed := 15,
    maxSpeedSq := 225, glowIntensity := 1, hueSpeed := 0.1, colorBase := ⟨0, 90, 60⟩ }

/-- The C3 counterexample system: active attract anchor 100 px to the right
of the particle (unit direction (1, 0)), radius 200, strength 0.5. -/
def sC3 : ParticleSystem :=
  { canvasWidth := 800, canvasHeight := 600, particles := [pC3], particleCount := 300,
    glowEnabled := true, mouseX := 100, mouseY := 0, mouseActive := true,
    mode := Mode.attract, forceRadius := 200, forceRadiusSq := 40000,
    forceStrength := 0.5, bgHue := 270, bgBrightness := 0, bgDirection := 1,
    performanceMode := false, cursorVisible := true, lastBgBrightness := -1,
    bgGradient := none }

/-- Claim C3, counterexample: at distance 100 from an active attract anchor
(force 0.25) a particle moving toward the anchor at speed 14 ends the tick
with velocity component 13.965 along the (pre-tick) anchor direction — the
friction applied after the force outweighs the kick, so the component does
not strictly increase.  The anchor direction here is the unit vector (1, 0),
so the component along it is the vx coordinate. -/
theorem attract_pull_counterexample :
    ((sC3.update fun _ => 1).particles.get? 0).map Particle.vx = some (2793 / 200)
    ∧ (sC3.mouseX - pC3.x) / 100 = 1 ∧ (sC3.mouseY - pC3.y) / 100 = 0
    ∧ ¬ (pC3.vx < 2793 / 200) := by
  have h := attract_tick_v sC3 (fun _ => 1) 0 pC3 100 rfl rfl rfl
    (by norm_num [sC3, pC3]) (by norm_num) (by norm_num [sC3])
    (by norm_num [sC3]) (by norm_num [sC3, pC3])
  refine ⟨?_, by norm_num [sC3, pC3], by norm_num [sC3, pC3], by norm_num [pC3]⟩
  rw [h.1]
  norm_num [sC3, pC3]

/-- Claim C3, amended: in attract mode, over one full tick the velocity
component along the pre-tick anchor direction strictly increases, provided
that component is below 49 × force (49 = friction/(1−friction) for the
configured friction 0.98) and the speed clamp does not engage; without those
provisos the friction applied after the force can strictly decrease the
component (see the counterexample). -/
theorem attract_pull_amended (s : ParticleSystem) (rnds : ℕ → ℝ) (i : ℕ) (p : Particle)
    (d nx ny c f : ℝ)
    (hp : s.particles.get? i = some p)
    (hact : s.mouseActive = true) (hmode : s.mode = Mode.attract)
    (hdsq : (s.mouseX - p.x) * (s.mouseX - p.x) + (s.mouseY - p.y) * (s.mouseY - p.y) = d * d)
    (hd1 : 1 < d) (hdr : d < s.forceRadius)
    (hrad : s.forceRadiusSq = s.forceRadius * s.forceRadius)
    (hnx : nx = (s.mouseX - p.x) / d) (hny : ny = (s.mouseY - p.y) / d)
    (hc : c = p.vx * nx + p.vy * ny)
    (hf : f = (1 - d / s.forceRadius) * s.forceStrength)
    (hfr : p.friction = 0.98)
    (hcf : c < 49 * f)
    (hnc : ((p.vx + nx * f) * p.friction) * ((p.vx + nx * f) * p.friction)
         + ((p.vy + ny * f) * p.friction) * ((p.vy + ny * f) * p.friction) ≤ p.maxSpeedSq) :
    ∃ q : Particle, (s.update rnds).particles.get? i = some q
      ∧ c < q.vx * nx + q.vy * ny := by
  have hd0 : (0 : ℝ) < d := lt_trans one_pos hd1
  rw [hnx, hny, hf] at hnc
  have h := attract_tick_v s rnds i p d hp hact hmode hdsq hd1 hdr hrad hnc
  cases hq : (s.update rnds).particles.get? i with
  | none => rw [hq] at h; exact absurd h.1 (by simp)
  | some q =>
      rw [hq] at h
      simp only [Option.map_some', Option.some.injEq] at h
      refine ⟨q, rfl, ?_⟩
      rw [h.1, h.2]
      have huv : nx * nx + ny * ny = 1 := by
        rw [hnx, hny, div_mul_div_comm, div_mul_div_comm, div_add_div_same, hdsq]
        exact div_self (ne_of_gt (mul_pos hd0 hd0))
      have hkey : (p.vx + (s.mouseX - p.x) / d * ((1 - d / s.forceRadius) * s.forceStrength))
            * p.friction * nx
          + (p.vy + (s.mouseY - p.y) / d * ((1 - d / s.forceRadius) * s.forceStrength))
            * p.friction * ny
          = p.friction * (c + f * (nx * nx + ny * ny)) := by
        rw [hc, hf, hnx, hny]; ring
      rw [hkey, huv, mul_one, hfr, hc]
      rw [hc] at hcf
      linarith

/-- Witness for C3 (amended): a particle at rest 100 px from the attract
anchor (unit direction (3/5, 4/5)) gains component 0.245 > 0. -/
def pC3w : Particle :=
  { x := 0, y := 0, vx := 0, vy := 0, baseSize := 3, size := 3, hue := 0,
    saturation := 90, lightness := 60, alpha := 1, friction := 0.98, maxSpeed := 15,
    maxSpeedSq := 225, glowIntensity := 1, hueSpeed := 0.1, colorBase := ⟨0, 90, 60⟩ }

def sC3w : ParticleSystem :=
  { canvasWidth := 800, canvasHeight := 600, particles := [pC3w], particleCount := 300,
    glowEnabled := true, mouseX := 60, mouseY := 80, mouseActive := true,
    mode := Mode.attract, forceRadius := 200, forceRadiusSq := 40000,
    forceStrength := 0.5, bgHue := 270, bgBrightness := 0, bgDirection := 1,
    performanceMode := false, cursorVisible := true, lastBgBrightness := -1,
    bgGradient := none }

theorem attract_pull_amended_witness :
    ∃ q : Particle, (sC3w.update fun _ => 1).particles.get? 0 = some q
      ∧ (0 : ℝ) < q.vx * (3 / 5) + q.vy * (4 / 5) := by
  have h := attract_pull_amended sC3w (fun _ => 1) 0 pC3w 100 (3 / 5) (4 / 5) 0 (1 / 4)
    rfl rfl rfl
    (by norm_num [sC3w, pC3w]) (by norm_num) (by norm_num [sC3w]) (by norm_num [sC3w])
    (by norm_num [sC3w, pC3w]) (by norm_num [sC3w, pC3w]) (by norm_num [pC3w])
    (by norm_num [sC3w]) (by norm_num [pC3w]) (by norm_num)
    (by norm_num [sC3w, pC3w])
  obtain ⟨q, hq, hlt⟩ := h
  exact ⟨q, hq, hlt⟩

/-- The particle of the C4 counterexample: drifting slowly away from the
anchor near the rim of the interaction radius. -/
def pC4 : Particle :=
  { x := 0, y := 0, vx := -1, vy := 0, baseSize := 3, size := 3, hue := 0,
    saturation := 90, lightness := 60, alpha := 1, friction := 0.98, maxSpeed := 15,
    maxSpeedSq := 225, glowIntensity := 1, hueSpeed := 0.1, colorBase := ⟨0, 90, 60⟩ }

/-- The C4 counterexample system: active repel anchor 199 px to the right of
the particle (unit direction (1, 0)), radius 200, strength 0.5, so the repel
kick is only 0.00375 while friction pulls the outward component toward 0. -/
def sC4 : ParticleSystem :=
  { canvasWidth := 800, canvasHeight := 600, particles := [pC4], particleCount := 300,
    glowEnabled := true, mouseX := 199, mouseY := 0, mouseActive := true,
    mode := Mode.repel, forceRadius := 200, forceRadiusSq := 40000,
    forceStrength := 0.5, bgHue := 270, bgBrightness := 0, bgDirection := 1,
    performanceMode := false, cursorVisible := true, lastBgBrightness := -1,
    bgGradient := none }

/-- Claim C4, counterexample: at distance 199 from an active repel anchor a
particle moving away at speed 1 ends the tick with velocity component
−0.983675 along the (pre-tick) anchor direction, strictly greater than the
pre-tick component −1: friction shrank the outward motion by more than the
tiny repel kick added, so the component does not strictly decrease.  The
anchor direction is the unit vector (1, 0), so the component is vx. -/
theorem repel_push_counterexample :
    ((sC4.update fun _ => 1).particles.get? 0).map Particle.vx = some (-(39347 / 40000))
    ∧ (sC4.mouseX - pC4.x) / 199 = 1 ∧ (sC4.mouseY - pC4.y) / 199 = 0
    ∧ ¬ ((-(39347 / 40000) : ℝ) < pC4.vx) := by
  have h := repel_tick_v sC4 (fun _ => 1) 0 pC4 199 rfl rfl rfl
    (by norm_num [sC4, pC4]) (by norm_num) (by norm_num [sC4])
    (by norm_num [sC4]) (by norm_num [sC4, pC4])
  refine ⟨?_, by norm_num [sC4, pC4], by norm_num [sC4, pC4], by norm_num [pC4]⟩
  rw [h.1]
  norm_num [sC4, pC4]

/-- Claim C4, amended: in repel mode the force application changes each
velocity component by exactly −1.5 times the change attract mode would
produce for the same particle, anchor, radius and strength; and over one full
tick the velocity component along the pre-tick anchor direction strictly
decreases provided that component is above −73.5 × force (friction 0.98) and
the speed clamp does not engage — without those provisos friction can
strictly increase an outward component (see the counterexample). -/
theorem repel_push_amended (s : ParticleSystem) (rnds : ℕ → ℝ) (i : ℕ) (p : Particle)
    (d nx ny c f : ℝ)
    (hp : s.particles.get? i = some p)
    (hact : s.mouseActive = true) (hmode : s.mode = Mode.repel)
    (hdsq : (s.mouseX - p.x) * (s.mouseX - p.x) + (s.mouseY - p.y) * (s.mouseY - p.y) = d * d)
    (hd1 : 1 < d) (hdr : d < s.forceRadius)
    (hrad : s.forceRadiusSq = s.forceRadius * s.forceRadius)
    (hnx : nx = (s.mouseX - p.x) / d) (hny : ny = (s.mouseY - p.y) / d)
    (hc : c = p.vx * nx + p.vy * ny)
    (hf : f = (1 - d / s.forceRadius) * s.forceStrength)
    (hfr : p.friction = 0.98)
    (hcf : -(147 / 2) * f < c)
    (hnc : ((p.vx - nx * (f * 1.5)) * p.friction) * ((p.vx - nx * (f * 1.5)) * p.friction)
         + ((p.vy - ny * (f * 1.5)) * p.friction) * ((p.vy - ny * (f * 1.5)) * p.friction)
         ≤ p.maxSpeedSq) :
    ((s.applyFieldForce p).vx - p.vx
        = -(1.5) * (({ s with mode := Mode.attract }.applyFieldForce p).vx - p.vx)
      ∧ (s.applyFieldForce p).vy - p.vy
        = -(1.5) * (({ s with mode := Mode.attract }.applyFieldForce p).vy - p.vy))
    ∧ ∃ q : Particle, (s.update rnds).particles.get? i = some q
        ∧ q.vx * nx + q.vy * ny < c := by
  have hd0 : (0 : ℝ) < d := lt_trans one_pos hd1
  constructor
  · rw [ParticleSystem.applyFieldForce_repel s p d hact hmode hdsq hd1 hdr hrad,
      ParticleSystem.applyFieldForce_attract { s with mode := Mode.attract } p d hact rfl
        hdsq hd1 hdr hrad]
    constructor <;> ring
  · have hnc2 : ((p.vx - (s.mouseX - p.x) / d * ((1 - d / s.forceRadius) * s.forceStrength * 1.5))
          * p.friction)
        * ((p.vx - (s.mouseX - p.x) / d * ((1 - d / s.forceRadius) * s.forceStrength * 1.5))
          * p.friction)
        + ((p.vy - (s.mouseY - p.y) / d * ((1 - d / s.forceRadius) * s.forceStrength * 1.5))
          * p.friction)
        * ((p.vy - (s.mouseY - p.y) / d * ((1 - d / s.forceRadius) * s.forceStrength * 1.5))
          * p.friction) ≤ p.maxSpeedSq := by
      rw [hnx, hny, hf] at hnc
      exact hnc
    have h := repel_tick_v s rnds i p d hp hact hmode hdsq hd1 hdr hrad hnc2
    cases hq : (s.update rnds).particles.get? i with
    | none => rw [hq] at h; exact absurd h.1 (by simp)
    | some q =>
        rw [hq] at h
        simp only [Option.map_some', Option.some.injEq] at h
        refine ⟨q, rfl, ?_⟩
        rw [h.1, h.2]
        have huv : nx * nx + ny * ny = 1 := by
          rw [hnx, hny, div_mul_div_comm, div_mul_div_comm, div_add_div_same, hdsq]
          exact div_self (ne_of_gt (mul_pos hd0 hd0))
        have hkey : (p.vx - (s.mouseX - p.x) / d
                * ((1 - d / s.forceRadius) * s.forceStrength * 1.5)) * p.friction * nx
            + (p.vy - (s.mouseY - p.y) / d
                * ((1 - d / s.forceRadius) * s.forceStrength * 1.5)) * p.friction * ny
            = p.friction * (c - 1.5 * f * (nx * nx + ny * ny)) := by
          rw [hc, hf, hnx, hny]; ring
        rw [hkey, huv, mul_one, hfr, hc]
        rw [hc] at hcf
        linarith

/-- Witness for C4 (amended): a particle at rest 100 px from the repel
anchor (unit direction (3/5, 4/5)); the force-step changes are −1.5 times
the attract kicks, and the tick sends the component to −0.3675 < 0. -/
def pC4w : Particle :=
  { x := 0, y := 0, vx := 0, vy := 0, baseSize := 3, size := 3, hue := 0,
    saturation := 90, lightness := 60, alpha := 1, friction := 0.98, maxSpeed := 15,
    maxSpeedSq := 225, glowIntensity := 1, hueSpeed := 0.1, colorBase := ⟨0, 90, 60⟩ }

def sC4w : ParticleSystem :=
  { canvasWidth := 800, canvasHeight := 600, particles := [pC4w], particleCount := 300,
    glowEnabled := true, mouseX := 60, mouseY := 80, mouseActive := true,
    mode := Mode.repel, forceRadius := 200, forceRadiusSq := 40000,
    forceStrength := 0.5, bgHue := 270, bgBrightness := 0, bgDirection := 1,
    performanceMode := false, cursorVisible := true, lastBgBrightness := -1,
    bgGradient := none }

theorem repel_push_amended_witness :
    (sC4w.applyFieldForce pC4w).vx - pC4w.vx
      = -(1.5) * (({ sC4w with mode := Mode.attract }.applyFieldForce pC4w).vx - pC4w.vx)
    ∧ ∃ q : Particle, (sC4w.update fun _ => 1).particles.get? 0 = some q
        ∧ q.vx * (3 / 5) + q.vy * (4 / 5) < 0 := by
  have h := repel_push_amended sC4w (fun _ => 1) 0 pC4w 100 (3 / 5) (4 / 5) 0 (1 / 4)
    rfl rfl rfl
    (by norm_num [sC4w, pC4w]) (by norm_num) (by norm_num [sC4w]) (by norm_num [sC4w])
    (by norm_num [sC4w, pC4w]) (by norm_num [sC4w, pC4w]) (by norm_num [pC4w])
    (by norm_num [sC4w]) (by norm_num [pC4w]) (by norm_num)
    (by norm_num [sC4w, pC4w])
  exact ⟨h.1.1, h.2⟩

/-- The Math.random() draws of one `spawnBurst` loop iteration: the hue draw,
the speed draw, and the draws consumed by the `Particle` constructor. -/
structure BurstDraw where
  rhue : ℝ
  rspeed : ℝ
  news : NewDraws

/-- The particle created by iteration `i` of `spawnBurst(x, y, count)`:
constructed at the burst origin with a random hue, then its velocity is
overwritten to point along angle `i/count × 2π` at speed `2 + random × 3`. -/
def burstParticle (x y : ℝ) (i count : ℕ) (dr : BurstDraw) : Particle :=
  let angle := (i : ℝ) / (count : ℝ) * (2 * Real.pi)
  let speed := 2 + dr.rspeed * 3
  { Particle.new x y (dr.rhue * 360) dr.news with
    vx := Real.cos angle * speed
    vy := Real.sin angle * speed }

/-- One `spawnBurst` loop iteration on the particle array: if the array has
reached the soft capacity, shift off the oldest (front) particle, then push
the new one. -/
def burstStep (maxLen : ℝ) (q : Particle) (ps : List Particle) : List Particle :=
  (if (ps.length : ℝ) ≥ maxLen then ps.tail else ps) ++ [q]

/-- `ParticleSystem.spawnBurst(x, y, count)`: run `count` insertions with
FIFO eviction against the soft capacity `particleCount * 1.2`, and return
`true` as the sound-cue signal. -/
def ParticleSystem.spawnBurst (s : ParticleSystem) (x y : ℝ) (count : ℕ)
    (draws : ℕ → BurstDraw) : ParticleSystem × Bool :=
  let maxLen : ℝ := (s.particleCount : ℝ) * 1.2
  let ps := (List.range count).foldl
    (fun ps i => burstStep maxLen (burstParticle x y i count (draws i)) ps) s.particles
  ({ s with particles := ps }, true)

lemma burstStep_length (m : ℝ) (q : Particle) (ps : List Particle) :
    (burstStep m q ps).length
      = (if (ps.length : ℝ) ≥ m then ps.length - 1 else ps.length) + 1 := by
  unfold burstStep
  split
  · simp [List.length_tail]
  · simp

/-- The fold prefix of `spawnBurst` after `n` of the `count` iterations. -/
def burstFold (x y : ℝ) (count : ℕ) (m : ℝ) (draws : ℕ → BurstDraw)
    (ps : List Particle) (n : ℕ) : List Particle :=
  (List.range n).foldl (fun ps i => burstStep m (burstParticle x y i count (draws i)) ps) ps

lemma burstFold_succ (x y : ℝ) (count : ℕ) (m : ℝ) (draws : ℕ → BurstDraw)
    (ps : List Particle) (n : ℕ) :
    burstFold x y count m draws ps (n + 1)
      = burstStep m (burstParticle x y n count (draws n))
          (burstFold x y count m draws ps n) := by
  unfold burstFold
  rw [List.range_succ, List.foldl_append]
  rfl

/-- Below capacity, each iteration appends without evicting. -/
lemma burstFold_no_evict (x y : ℝ) (count : ℕ) (m : ℝ) (draws : ℕ → BurstDraw)
    (ps : List Particle) :
    ∀ n : ℕ, ((ps.length + n : ℕ) : ℝ) ≤ m →
      burstFold x y count m draws ps n
        = ps ++ (List.range n).map (fun i => burstParticle x y i count (draws i)) := by
  intro n
  induction n with
  | zero => intro _; simp [burstFold]
  | succ n ih =>
      intro hle
      have hlen : ((ps.length + n : ℕ) : ℝ) ≤ m := by
        push_cast at hle ⊢
        linarith
      rw [burstFold_succ, ih hlen]
      unfold burstStep
      rw [if_neg]
      · rw [List.range_succ, List.map_append]
        simp
      · push_cast at hle ⊢
        simp only [List.length_append, List.length_map, List.length_range]
        push_cast
        intro hcon
        linarith

/-- At (or beyond) capacity, each iteration evicts the oldest particle, so
the store is the old store with its first `n` particles dropped, followed by
the `n` new ones. -/
lemma burstFold_evict (x y : ℝ) (count : ℕ) (m : ℝ) (draws : ℕ → BurstDraw)
    (ps : List Particle) (hm : (ps.length : ℝ) ≥ m) :
    ∀ n : ℕ, n ≤ ps.length →
      burstFold x y count m draws ps n
        = ps.drop n ++ (List.range n).map (fun i => burstParticle x y i count (draws i)) := by
  intro n
  induction n with
  | zero => intro _; simp [burstFold]
  | succ n ih =>
      intro hle
      have hlen : n ≤ ps.length := Nat.le_of_succ_le hle
      rw [burstFold_succ, ih hlen]
      unfold burstStep
      have hlistlen : ((ps.drop n ++ (List.range n).map
          (fun i => burstParticle x y i count (draws i))).length : ℝ) = (ps.length : ℝ) := by
        simp only [List.length_append, List.length_drop, List.length_map, List.length_range]
        push_cast [Nat.sub_add_cancel hlen]
        norm_num
      rw [if_pos (by rw [hlistlen]; exact hm)]
      have hne : ps.drop n ≠ [] := by
        intro hcon
        have := congrArg List.length hcon
        simp only [List.length_drop, List.length_nil] at this
        omega
      obtain ⟨a, as, hcons⟩ := List.exists_cons_of_ne_nil hne
      have hdropsucc : List.drop (n + 1) ps = as := by
        rw [← List.tail_drop, hcons]
        rfl
      rw [hcons, hdropsucc, List.range_succ, List.map_append]
      simp

/-- Each iteration leaves the store size unchanged if at capacity with at
least one particle, else grows it by one; in particular the size never
exceeds an integral capacity bound once below it. -/
lemma burstFold_length_le (x y : ℝ) (count : ℕ) (draws : ℕ → BurstDraw)
    (ps : List Particle) (k : ℕ) (hk1 : 1 ≤ k) (hL : ps.length ≤ k) :
    ∀ n : ℕ, (burstFold x y count (k : ℝ) draws ps n).length ≤ k := by
  intro n
  induction n with
  | zero => simpa [burstFold] using hL
  | succ n ih =>
      rw [burstFold_succ, burstStep_length]
      split
      · rename_i hge
        have hlen : k ≤ (burstFold x y count (k : ℝ) draws ps n).length := by
          exact_mod_cast hge
        omega
      · rename_i hlt
        have hlen : (burstFold x y count (k : ℝ) draws ps n).length < k := by
          have := lt_of_not_le hlt
          exact_mod_cast this
        omega

/-- Claim C6: `spawnBurst(x, y, count)` always returns true (the sound-cue
signal); it grows the store by `count` when the result stays within the soft
capacity `1.2 × particleCount`; at (or beyond) capacity each insertion first
evicts the oldest (front) particle, so the store becomes the old store minus
its `count` oldest plus the `count` new particles, its size unchanged; and
for an integral capacity `k ≥ 1` the size never exceeds `k` once at most
`k`. -/
theorem spawnBurst_spec (s : ParticleSystem) (x y : ℝ) (count : ℕ)
    (draws : ℕ → BurstDraw) (k : ℕ)
    (hk : (k : ℝ) = (s.particleCount : ℝ) * 1.2) (hk1 : 1 ≤ k) :
    (s.spawnBurst x y count draws).2 = true
    ∧ (((s.particles.length + count : ℕ) : ℝ) ≤ (s.particleCount : ℝ) * 1.2 →
        (s.spawnBurst x y count draws).1.particles.length = s.particles.length + count)
    ∧ (k ≤ s.particles.length → count ≤ s.particles.length →
        (s.spawnBurst x y count draws).1.particles
          = s.particles.drop count
            ++ (List.range count).map (fun i => burstParticle x y i count (draws i))
        ∧ (s.spawnBurst x y count draws).1.particles.length = s.particles.length)
    ∧ (s.particles.length ≤ k →
        (s.spawnBurst x y count draws).1.particles.length ≤ k) := by
  have hfst : (s.spawnBurst x y count draws).1.particles
      = burstFold x y count ((s.particleCount : ℝ) * 1.2) draws s.particles count := rfl
  refine ⟨rfl, ?_, ?_, ?_⟩
  · intro hle
    rw [hfst, burstFold_no_evict x y count _ draws s.particles count hle]
    simp
  · intro hcap hcnt
    have hm : (s.particles.length : ℝ) ≥ (s.particleCount : ℝ) * 1.2 := by
      rw [← hk]
      exact_mod_cast hcap
    constructor
    · rw [hfst, burstFold_evict x y count _ draws s.particles hm count hcnt]
    · rw [hfst, burstFold_evict x y count _ draws s.particles hm count hcnt]
      simp only [List.length_append, List.length_drop, List.length_map, List.length_range]
      omega
  · intro hle
    rw [hfst, ← hk]
    exact burstFold_length_le x y count draws s.particles k hk1 hle count

/-- Witness for C6 at the nominal configuration (particleCount 300, capacity
360): bursting 2 particles into an empty store returns true and grows the
store to 2, which is within the capacity bound. -/
def sC6 : ParticleSystem :=
  { canvasWidth := 800, canvasHeight := 600, particles := [], particleCount := 300,
    glowEnabled := true, mouseX := 400, mouseY := 300, mouseActive := false,
    mode := Mode.attract, forceRadius := 200, forceRadiusSq := 40000,
    forceStrength := 0.5, bgHue := 270, bgBrightness := 0, bgDirection := 1,
    performanceMode := false, cursorVisible := true, lastBgBrightness := -1,
    bgGradient := none }

def drC6 : BurstDraw :=
  { rhue := 0.5, rspeed := 0.5,
    news := { rvx := 0.5, rvy := 0.5, rsize := 0.5, rhue := 0.5, rsat := 0.5,
              rlight := 0.5, ralpha := 0.5, rglow := 0.5, rhueSpeed := 0.5 } }

theorem spawnBurst_spec_witness :
    (sC6.spawnBurst 100 100 2 fun _ => drC6).2 = true
    ∧ (sC6.spawnBurst 100 100 2 fun _ => drC6).1.particles.length = 2
    ∧ (sC6.spawnBurst 100 100 2 fun _ => drC6).1.particles.length ≤ 360 := by
  have h := spawnBurst_spec sC6 100 100 2 (fun _ => drC6) 360
    (by norm_num [sC6]) (by norm_num)
  refine ⟨h.1, ?_, h.2.2.2 (by norm_num [sC6])⟩
  have h2 := h.2.1 (by norm_num [sC6])
  simpa [sC6] using h2

/-- `ParticleSystem.resize(width, height)`: scale every particle's position
by the ratio of the new dimensions to the canvas dimensions the system
currently reads; nothing else is touched. -/
def ParticleSystem.resize (s : ParticleSystem) (width height : ℝ) : ParticleSystem :=
  { s with
    particles := s.particles.map fun p =>
      { p with
        x := p.x * (width / s.canvasWidth)
        y := p.y * (height / s.canvasHeight) } }

/-- Claim C7: `resize(newWidth, newHeight)` multiplies each particle's x by
`newWidth / oldWidth` and y by `newHeight / oldHeight` and changes nothing
else about the particle; from an 800×600 viewport, `resize(1600, 1200)`
scales every position by exactly 2 in both axes. -/
theorem resize_scales (s : ParticleSystem) (width height : ℝ) (i : ℕ) :
    ((s.resize width height).particles.get? i
      = (s.particles.get? i).map fun p =>
          { p with
            x := p.x * (width / s.canvasWidth)
            y := p.y * (height / s.canvasHeight) })
    ∧ (s.canvasWidth = 800 → s.canvasHeight = 600 →
        (s.resize 1600 1200).particles.get? i
          = (s.particles.get? i).map fun p => { p with x := p.x * 2, y := p.y * 2 }) := by
  constructor
  · show (s.particles.map _).get? i = _
    rw [List.get?_map]
  · intro hw hh
    show (s.particles.map _).get? i = _
    rw [List.get?_map, hw, hh]
    norm_num

/-- Witness for C7: the single particle at (3, 5) on an 800×600 canvas lands
at (6, 10) after resize(1600, 1200). -/
def pC7 : Particle :=
  { x := 3, y := 5, vx := 1, vy := 2, baseSize := 3, size := 3, hue := 0,
    saturation := 90, lightness := 60, alpha := 1, friction := 0.98, maxSpeed := 15,
    maxSpeedSq := 225, glowIntensity := 1, hueSpeed := 0.1, colorBase := ⟨0, 90, 60⟩ }

def sC7 : ParticleSystem :=
  { canvasWidth := 800, canvasHeight := 600, particles := [pC7], particleCount := 300,
    glowEnabled := true, mouseX := 400, mouseY := 300, mouseActive := false,
    mode := Mode.attract, forceRadius := 200, forceRadiusSq := 40000,
    forceStrength := 0.5, bgHue := 270, bgBrightness := 0, bgDirection := 1,
    performanceMode := false, cursorVisible := true, lastBgBrightness := -1,
    bgGradient := none }

theorem resize_scales_witness :
    (sC7.resize 1600 1200).particles.get? 0
      = some { pC7 with x := pC7.x * 2, y := pC7.y * 2 } := by
  have h := (resize_scales sC7 1600 1200 0).2 rfl rfl
  rw [h]
  rfl

/-- A particle color as passed to the canvas: the cached base components with
an alpha (the string `hsla(base, alpha)` built by `getColor`). -/
structure Hsla where
  base : ColorBase
  alpha : ℝ

/-- `getColor(alpha)`: the cached base color at the given alpha (calls
without an argument pass the particle's own alpha explicitly here). -/
def Particle.getColor (p : Particle) (alpha : ℝ) : Hsla := ⟨p.colorBase, alpha⟩

/-- One glow-pass draw: a radial gradient of the given radius at the particle
position with the two color stops used by the source (inner at a quarter of
the glow intensity, outer fully transparent). -/
structure GlowCmd where
  x : ℝ
  y : ℝ
  radius : ℝ
  stop0 : Hsla
  stop1 : Hsla

/-- One filled-circle draw of the core or bright-center pass. -/
structure DotCmd where
  x : ℝ
  y : ℝ
  radius : ℝ
  color : Hsla

/-- The cursor indicator: ring of radius 20 and dot of radius 4 at the anchor
in the fixed per-mode color. -/
structure CursorCmd where
  x : ℝ
  y : ℝ
  color : String

/-- The background fill: flat color in performance mode, the (possibly
cached) radial gradient otherwise. -/
inductive Background
  | flat (color : String)
  | gradientFill (g : Option RadialGradient)

/-- Everything `render()` paints in one frame, in pass order. -/
structure Frame where
  bg : Background
  glowPass : List GlowCmd
  corePass : List DotCmd
  centerPass : List DotCmd
  cursor : Option CursorCmd

/-- The fixed per-mode cursor color prefixes of `_cursorColors`. -/
def cursorColor : Mode → String
  | Mode.attract => "rgba(0,217,255,"
  | Mode.repel => "rgba(255,0,255,"
  | Mode.swirl => "rgba(255,215,0,"

/-- `ParticleSystem.render()`: returns the successor state (the gradient
cache may be refreshed) together with the frame painted.  Performance tier:
flat background and a single core pass.  Quality tier: the radial background
gradient is rebuilt only when the rounded brightness differs from the cached
key; then glow, core, and bright-center passes over all particles.  The
cursor indicator is drawn last when the anchor is active and visible. -/
def ParticleSystem.render (s : ParticleSystem) : ParticleSystem × Frame :=
  if s.performanceMode then
    (s,
     { bg := Background.flat "#0D0214"
       glowPass := []
       corePass := s.particles.map fun p => ⟨p.x, p.y, p.size, p.getColor p.alpha⟩
       centerPass := []
       cursor := if s.mouseActive ∧ s.cursorVisible then
           some ⟨s.mouseX, s.mouseY, cursorColor s.mode⟩
         else none })
  else
    let br := round s.bgBrightness
    let s1 := if br = s.lastBgBrightness then s
      else
        { s with
          lastBgBrightness := br
          bgGradient := some
            ⟨s.canvasWidth / 2, s.canvasHeight / 2,
             max s.canvasWidth s.canvasHeight, 2 + br⟩ }
    (s1,
     { bg := Background.gradientFill s1.bgGradient
       glowPass := s.particles.map fun p =>
         ⟨p.x, p.y, p.size * 3, p.getColor (0.25 * p.glowIntensity), p.getColor 0⟩
       corePass := s.particles.map fun p => ⟨p.x, p.y, p.size, p.getColor p.alpha⟩
       centerPass := s.particles.map fun p => ⟨p.x, p.y, p.size * 0.5, p.getColor 1⟩
       cursor := if s.mouseActive ∧ s.cursorVisible then
           some ⟨s.mouseX, s.mouseY, cursorColor s.mode⟩
         else none })

/-- Claim C8: `render()` mutates no simulation state — particles (all their
position, velocity, size and color fields), anchor position and active flag,
mode, and force parameters are unchanged — and rendering twice with no
intervening update paints the same frame both times. -/
theorem render_pure (s : ParticleSystem) :
    (s.render).1.particles = s.particles
    ∧ (s.render).1.mouseX = s.mouseX
    ∧ (s.render).1.mouseY = s.mouseY
    ∧ (s.render).1.mouseActive = s.mouseActive
    ∧ (s.render).1.mode = s.mode
    ∧ (s.render).1.forceRadius = s.forceRadius
    ∧ (s.render).1.forceRadiusSq = s.forceRadiusSq
    ∧ (s.render).1.forceStrength = s.forceStrength
    ∧ ((s.render).1.render).2 = (s.render).2 := by
  unfold ParticleSystem.render
  by_cases hpm : s.performanceMode = true
  · simp [hpm]
  · have hpm2 : s.performanceMode = false := Bool.eq_false_iff.mpr hpm
    by_cases hbr : round s.bgBrightness = s.lastBgBrightness
    · simp [hpm2, hbr]
    · simp [hpm2, hbr]

/-- The cached background gradient a quality render builds on an 800×600
canvas at rounded brightness 0: centered at (400, 300), radius 800, inner
stop lightness 2. -/
def gC9 : RadialGradient := ⟨400, 300, 800, 2⟩

/-- C9 failing input: a system that has rendered at 800×600 (gradient cached
under brightness key 0) and is about to be resized to 1600×1200. -/
def sC9 : ParticleSystem :=
  { canvasWidth := 800, canvasHeight := 600, particles := [], particleCount := 300,
    glowEnabled := true, mouseX := 400, mouseY := 300, mouseActive := false,
    mode := Mode.attract, forceRadius := 200, forceRadiusSq := 40000,
    forceStrength := 0.5, bgHue := 270, bgBrightness := 0, bgDirection := 1,
    performanceMode := false, cursorVisible := true, lastBgBrightness := 0,
    bgGradient := some gC9 }

/-- The state after the viewport change: the embedding application first
assigns the new canvas dimensions and then calls `resize(1600, 1200)`. -/
def sC9r : ParticleSystem :=
  ({ sC9 with canvasWidth := 1600, canvasHeight := 1200 }).resize 1600 1200

/-- Claim C9 is violated by the code: `resize` leaves the gradient cache
(`_lastBgBrightness`, `_bgGradient`) untouched, and since the rounded
brightness still equals the cached key, the next quality render reuses the
stale gradient built for the 800×600 canvas — its center (400, 300) and
radius 800 do not match the new 1600×1200 canvas — instead of rebuilding. -/
theorem resize_stale_gradient :
    sC9r.lastBgBrightness = sC9.lastBgBrightness
    ∧ sC9r.bgGradient = some gC9
    ∧ (sC9r.render).2.bg = Background.gradientFill (some gC9)
    ∧ (sC9r.render).1.lastBgBrightness = sC9.lastBgBrightness
    ∧ gC9.cx ≠ 1600 / 2 ∧ gC9.r ≠ max 1600 1200 := by
  refine ⟨rfl, rfl, ?_, ?_, by norm_num [gC9], by norm_num [gC9]⟩
  · show ((sC9r.render).2).bg = _
    unfold ParticleSystem.render
    norm_num [sC9r, sC9, ParticleSystem.resize]
  · show ((sC9r.render).1).lastBgBrightness = _
    unfold ParticleSystem.render
    norm_num [sC9r, sC9, ParticleSystem.resize]

/-- One particle record of the earlier sqrt-based engine variant
(web/js/particles.js), whose update methods receive a delta-time
argument. -/
structure ParticleJS where
  x : ℝ
  y : ℝ
  vx : ℝ
  vy : ℝ
  baseSize : ℝ
  size : ℝ
  hue : ℝ
  saturation : ℝ
  lightness : ℝ
  alpha : ℝ
  friction : ℝ
  maxSpeed : ℝ
  glowIntensity : ℝ
  hueOffset : ℝ
  hueSpeed : ℝ

/-- `Math.atan2(y, x)` is the argument of the complex number `x + y i`. -/
def jsAtan2 (y x : ℝ) : ℝ := Complex.arg ⟨x, y⟩

/-- `Particle.prototype.update(dt, width, height)` of the sqrt variant: the
dt parameter is received but never read; the speed limit compares the rooted
speed and rescales through division by it; the boundary wrap runs as two
independent if statements per axis. -/
def ParticleJS.update (p : ParticleJS) (dt width height : ℝ) : ParticleJS :=
  let x1 := p.x + p.vx
  let y1 := p.y + p.vy
  let vx1 := p.vx * p.friction
  let vy1 := p.vy * p.friction
  let speed := Real.sqrt (vx1 * vx1 + vy1 * vy1)
  let vx2 := if speed > p.maxSpeed then vx1 / speed * p.maxSpeed else vx1
  let vy2 := if speed > p.maxSpeed then vy1 / speed * p.maxSpeed else vy1
  let x2 := if x1 < -20 then width + 20 else x1
  let x3 := if x2 > width + 20 then -20 else x2
  let y2 := if y1 < -20 then height + 20 else y1
  let y3 := if y2 > height + 20 then -20 else y2
  { p with
    x := x3
    y := y3
    vx := vx2
    vy := vy2
    hue := jsMod (p.hue + p.hueSpeed) 360
    size := p.baseSize + speed * 0.3 }

/-- The system state of the sqrt-based engine variant. -/
structure SystemJS where
  canvasWidth : ℝ
  canvasHeight : ℝ
  particles : List ParticleJS
  particleCount : ℕ
  glowEnabled : Bool
  mouseX : ℝ
  mouseY : ℝ
  mouseActive : Bool
  mode : Mode
  forceRadius : ℝ
  forceStrength : ℝ
  bgHue : ℝ
  bgBrightness : ℝ
  bgDirection : ℝ
  performanceMode : Bool

/-- The force application of the sqrt variant: rooted distance guard, angle
via atan2, force components via cos/sin. -/
def SystemJS.applyFieldForceJS (s : SystemJS) (p : ParticleJS) : ParticleJS :=
  if s.mouseActive then
    let dx := s.mouseX - p.x
    let dy := s.mouseY - p.y
    let dist := Real.sqrt (dx * dx + dy * dy)
    if dist < s.forceRadius ∧ dist > 1 then
      let force := (1 - dist / s.forceRadius) * s.forceStrength
      let angle := jsAtan2 dy dx
      match s.mode with
      | Mode.attract =>
          { p with
            vx := p.vx + Real.cos angle * force
            vy := p.vy + Real.sin angle * force }
      | Mode.repel =>
          { p with
            vx := p.vx + -Real.cos angle * force * 1.5
            vy := p.vy + -Real.sin angle * force * 1.5 }
      | Mode.swirl =>
          let perpAngle := angle + Real.pi / 2
          let pullForce := force * 0.3
          let swirlForce := force * 0.8
          { p with
            vx := p.vx + (Real.cos perpAngle * swirlForce + Real.cos angle * pullForce)
            vy := p.vy + (Real.sin perpAngle * swirlForce + Real.sin angle * pullForce) }
    else p
  else p

/-- `ParticleSystem.update(dt)` of the sqrt variant: background oscillator,
then force application and `particle.update(dt, width, height)` for every
particle — dt is passed through but never used. -/
def SystemJS.update (s : SystemJS) (dt : ℝ) : SystemJS :=
  let b1 := s.bgBrightness + 0.1 * s.bgDirection
  let dir1 : ℝ := if b1 > 3 then -1 else if b1 < 0 then 1 else s.bgDirection
  { s with
    bgBrightness := b1
    bgDirection := dir1
    particles := s.particles.map fun p =>
      (s.applyFieldForceJS p).update dt s.canvasWidth s.canvasHeight }

/-- The delta-time computed and clamped by the animation loop:
`min((now - lastTime) / 1000, 0.1)`. -/
def animateDt (now lastTime : ℝ) : ℝ := min ((now - lastTime) / 1000) 0.1

/-- Claim C10: the per-tick physics is independent of the delta-time value —
the clamped dt of the animation loop is passed into the update but never
used, so updates driven by any two wall-clock timestamp pairs (and any two
dt values at particle level) produce identical states. -/
theorem dt_independent (s : SystemJS) (p : ParticleJS)
    (now1 lastT1 now2 lastT2 dt1 dt2 width height : ℝ) :
    s.update (animateDt now1 lastT1) = s.update (animateDt now2 lastT2)
    ∧ p.update dt1 width height = p.update dt2 width height :=
  ⟨rfl, rfl⟩

end ParticleDance
